import Mathlib

/-!
Verification of the Bid Estimation & Strategy Engine of Just-In-Site V7.

This file embeds the two modules the specification's core claims are about:

* `src/jaguar_heart.py` — class `JaguarHeart` (assembly catalog, active bid,
  cost rollup and markup recap);
* `src/owl.bids.py` — class `OwlBids` (win-probability scoring and bid
  strategy recommendation).

Modelling conventions:

* Python `float` values are modelled as exact rationals (`ℚ`).  Python's
  built-in `round(x, n)` (round-half-to-even to `n` decimal places) is
  modelled by `roundHalfEven` / `round2` / `round1` below, as an exact
  operation on `ℚ`.
* Python dictionaries returned by the methods become Lean structures whose
  field names are the dictionary keys.
* `uuid.uuid4().hex[:6].upper()` in `start_new_bid` is nondeterministic
  I/O; the generated six-character suffix is passed in as an explicit
  argument `hex6`.  No claim depends on the id's value.
* Mutation of `self.current_bid` is modelled by explicit state passing:
  methods that mutate the `JaguarHeart` instance take it as an argument and
  return the updated instance.
-/

/-- Python's `round` to an integer: round half to even (banker's rounding). -/
def roundHalfEven (x : ℚ) : ℤ :=
  if x - ⌊x⌋ < 1/2 then ⌊x⌋
  else if 1/2 < x - ⌊x⌋ then ⌊x⌋ + 1
  else if ⌊x⌋ % 2 = 0 then ⌊x⌋ else ⌊x⌋ + 1

/-- Python's `round(x, 2)`. -/
def round2 (x : ℚ) : ℚ := (roundHalfEven (x * 100) : ℚ) / 100

/-- Python's `round(x, 1)`. -/
def round1 (x : ℚ) : ℚ := (roundHalfEven (x * 10) : ℚ) / 10

lemma roundHalfEven_of_lt (x : ℚ) (n : ℤ) (h₁ : (n:ℚ) ≤ x) (h₂ : x < (n:ℚ) + 1/2) :
    roundHalfEven x = n := by
  have hf : ⌊x⌋ = n := Int.floor_eq_iff.mpr ⟨h₁, by linarith⟩
  unfold roundHalfEven
  rw [hf, if_pos (by linarith)]

lemma roundHalfEven_of_gt (x : ℚ) (n : ℤ) (h₁ : (n:ℚ) + 1/2 < x) (h₂ : x < (n:ℚ) + 1) :
    roundHalfEven x = n + 1 := by
  have hf : ⌊x⌋ = n := Int.floor_eq_iff.mpr ⟨by linarith, h₂⟩
  unfold roundHalfEven
  rw [hf, if_neg (by linarith), if_pos (by linarith)]

lemma round2_eq_of_lt (x r : ℚ) (n : ℤ) (h₁ : (n:ℚ) ≤ x * 100) (h₂ : x * 100 < (n:ℚ) + 1/2)
    (h₃ : (n:ℚ) / 100 = r) : round2 x = r := by
  unfold round2
  rw [roundHalfEven_of_lt (x * 100) n h₁ h₂, h₃]

lemma round2_eq_of_gt (x r : ℚ) (n : ℤ) (h₁ : (n:ℚ) + 1/2 < x * 100) (h₂ : x * 100 < (n:ℚ) + 1)
    (h₃ : ((n:ℚ) + 1) / 100 = r) : round2 x = r := by
  unfold round2
  rw [roundHalfEven_of_gt (x * 100) n h₁ h₂]
  push_cast
  rw [h₃]

lemma round1_eq_of_lt (x r : ℚ) (n : ℤ) (h₁ : (n:ℚ) ≤ x * 10) (h₂ : x * 10 < (n:ℚ) + 1/2)
    (h₃ : (n:ℚ) / 10 = r) : round1 x = r := by
  unfold round1
  rw [roundHalfEven_of_lt (x * 10) n h₁ h₂, h₃]

lemma round1_eq_of_gt (x r : ℚ) (n : ℤ) (h₁ : (n:ℚ) + 1/2 < x * 10) (h₂ : x * 10 < (n:ℚ) + 1)
    (h₃ : ((n:ℚ) + 1) / 10 = r) : round1 x = r := by
  unfold round1
  rw [roundHalfEven_of_gt (x * 10) n h₁ h₂]
  push_cast
  rw [h₃]

lemma abs_roundHalfEven_sub_le (x : ℚ) : |(roundHalfEven x : ℚ) - x| ≤ 1/2 := by
  have h₁ : (⌊x⌋ : ℚ) ≤ x := Int.floor_le x
  have h₂ : x < ⌊x⌋ + 1 := Int.lt_floor_add_one x
  unfold roundHalfEven
  split_ifs with ha hb hc <;> rw [abs_le] <;> constructor <;> push_cast <;> linarith

lemma abs_round1_sub_le (x : ℚ) : |round1 x - x| ≤ 1/20 := by
  have h := abs_roundHalfEven_sub_le (x * 10)
  unfold round1
  rw [abs_le] at h ⊢
  obtain ⟨hl, hr⟩ := h
  constructor <;> [linarith; linarith]

lemma pos_of_round2_pos (x : ℚ) (h : 0 < round2 x) : 0 < x := by
  have hb := abs_roundHalfEven_sub_le (x * 100)
  rw [abs_le] at hb
  have hn : (0:ℚ) < (roundHalfEven (x * 100) : ℚ) := by
    unfold round2 at h
    linarith [h]
  have hn' : (1:ℚ) ≤ (roundHalfEven (x * 100) : ℚ) := by
    have : (0:ℤ) < roundHalfEven (x * 100) := by exact_mod_cast hn
    exact_mod_cast this
  linarith [hb.2]

lemma round1_intCast (n : ℤ) : round1 ((n:ℚ)) = n := by
  unfold round1
  have : ((n:ℚ)) * 10 = ((10 * n : ℤ) : ℚ) := by push_cast; ring
  rw [this, roundHalfEven_of_lt _ (10 * n) (le_refl _) (by push_cast; linarith)]
  push_cast
  ring

lemma round2_zero : round2 0 = 0 := by
  apply round2_eq_of_lt _ _ 0 <;> norm_num

/-!
Embedding of `src/jaguar_heart.py` (class `JaguarHeart`, lines 58-198).
-/

/-- One entry of `MOCK_ASSEMBLIES` (`src/jaguar_heart.py` lines 58-80). -/
structure Assembly where
  name : String
  description : String
  material_cost : ℚ
  labor_hours : ℚ
  category : String
deriving DecidableEq

/-- The `MOCK_ASSEMBLIES` dictionary, as the lookup function `dict.get`
(`src/jaguar_heart.py` lines 58-80 and line 140). -/
def MOCK_ASSEMBLIES (sku : String) : Option Assembly :=
  if sku = "ASM-REC-20A" then
    some ⟨"20A Duplex Receptacle Complete", "Box, device, plate, pigtail, 15ft pipe/wire",
          12.50, 0.50, "DEVICES"⟩
  else if sku = "ASM-LIGHT-2x4" then
    some ⟨"2x4 LED Troffer Complete", "Fixture, seismic wire, whip, connection",
          65.00, 0.75, "LIGHTING"⟩
  else if sku = "ASM-SW-1P" then
    some ⟨"Single Pole Switch Complete", "Box, switch, plate, pigtail, 15ft pipe/wire",
          9.25, 0.45, "DEVICES"⟩
  else none

/-- A line item appended by `pump_assembly` (`src/jaguar_heart.py` lines 145-153). -/
structure LineItem where
  sku : String
  name : String
  qty : ℤ
  unit_mat_cost : ℚ
  unit_labor_hours : ℚ
  total_mat_cost : ℚ
  total_labor_hours : ℚ
deriving DecidableEq

/-- The `current_bid` dictionary (`src/jaguar_heart.py` lines 102-107 and 126-131).
`id` and `name` are `None` until `start_new_bid` runs. -/
structure Bid where
  id : Option String
  name : Option String
  items : List LineItem
  difficulty_factor : ℚ
deriving DecidableEq

/-- The recap dictionary returned by `check_vitals` (`src/jaguar_heart.py` lines 186-198). -/
structure BidRecap where
  estimate_id : Option String
  project : Option String
  material_total : ℚ
  labor_hours_base : ℚ
  labor_hours_adj : ℚ
  labor_cost_total : ℚ
  raw_cost : ℚ
  overhead_amt : ℚ
  profit_amt : ℚ
  sell_price : ℚ
  margin_pct : ℚ
deriving DecidableEq

/-- The `JaguarHeart` instance state (`src/jaguar_heart.py` lines 96-107). -/
structure JaguarHeart where
  labor_rate : ℚ
  burden : ℚ
  burdened_rate : ℚ
  current_bid : Bid
deriving DecidableEq

/-- The constructor `JaguarHeart.__init__` (`src/jaguar_heart.py` lines 96-107):
`burdened_rate = round(base_labor_rate * labor_burden, 2)`, empty current bid. -/
def JaguarHeart.init (base_labor_rate labor_burden : ℚ) : JaguarHeart :=
  { labor_rate := base_labor_rate
    burden := labor_burden
    burdened_rate := round2 (base_labor_rate * labor_burden)
    current_bid := { id := none, name := none, items := [], difficulty_factor := 1 } }

/-- The method `start_new_bid` (`src/jaguar_heart.py` lines 113-134).  The
six-character uppercase hex suffix drawn from `uuid.uuid4()` is passed in as
`hex6`. -/
def JaguarHeart.start_new_bid (heart : JaguarHeart) (project_name : String)
    (difficulty : String) (hex6 : String) : JaguarHeart :=
  let factor : ℚ :=
    if difficulty = "HIGH_CEILINGS" then 1.2
    else if difficulty = "CONFINED_SPACE" then 1.5
    else if difficulty = "OCCUPIED_PREMISES" then 1.3
    else 1.0
  { heart with
    current_bid :=
      { id := some ("EST-" ++ hex6)
        name := some project_name
        items := []
        difficulty_factor := factor } }

/-- The method `pump_assembly` (`src/jaguar_heart.py` lines 136-156): look the
sku up in `MOCK_ASSEMBLIES`; on a miss return `False` leaving the state
untouched, otherwise append the extended line item and return `True`.  The
source performs no validation of `qty`. -/
def JaguarHeart.pump_assembly (heart : JaguarHeart) (assembly_sku : String) (qty : ℤ) :
    Bool × JaguarHeart :=
  match MOCK_ASSEMBLIES assembly_sku with
  | none => (false, heart)
  | some assembly =>
      let line_item : LineItem :=
        { sku := assembly_sku
          name := assembly.name
          qty := qty
          unit_mat_cost := assembly.material_cost
          unit_labor_hours := assembly.labor_hours
          total_mat_cost := round2 (assembly.material_cost * qty)
          total_labor_hours := round2 (assembly.labor_hours * qty) }
      (true, { heart with
               current_bid :=
                 { heart.current_bid with
                   items := heart.current_bid.items ++ [line_item] } })

/-- Local `total_mat` of `check_vitals` (`src/jaguar_heart.py` line 170). -/
def JaguarHeart.total_mat (items : List LineItem) : ℚ :=
  (items.map fun item => item.total_mat_cost).sum

/-- Local `base_labor_hours` of `check_vitals` (`src/jaguar_heart.py` line 171). -/
def JaguarHeart.base_labor_hours (items : List LineItem) : ℚ :=
  (items.map fun item => item.total_labor_hours).sum

/-- Local `adjusted_labor_hours` of `check_vitals` (`src/jaguar_heart.py` line 174). -/
def JaguarHeart.adjusted_labor_hours (items : List LineItem) (diff_factor : ℚ) : ℚ :=
  JaguarHeart.base_labor_hours items * diff_factor

/-- Local `total_labor_cost` of `check_vitals` (`src/jaguar_heart.py` line 175). -/
def JaguarHeart.total_labor_cost (items : List LineItem) (diff_factor burdened_rate : ℚ) : ℚ :=
  JaguarHeart.adjusted_labor_hours items diff_factor * burdened_rate

/-- Local `raw_cost` of `check_vitals` (`src/jaguar_heart.py` line 177). -/
def JaguarHeart.raw_cost (items : List LineItem) (diff_factor burdened_rate : ℚ) : ℚ :=
  JaguarHeart.total_mat items + JaguarHeart.total_labor_cost items diff_factor burdened_rate

/-- Local `overhead_amt` of `check_vitals` (`src/jaguar_heart.py` line 180). -/
def JaguarHeart.overhead_amt (items : List LineItem) (diff_factor burdened_rate overhead_pct : ℚ) : ℚ :=
  JaguarHeart.raw_cost items diff_factor burdened_rate * (overhead_pct / 100)

/-- Local `break_even` of `check_vitals` (`src/jaguar_heart.py` line 181). -/
def JaguarHeart.break_even (items : List LineItem) (diff_factor burdened_rate overhead_pct : ℚ) : ℚ :=
  JaguarHeart.raw_cost items diff_factor burdened_rate +
    JaguarHeart.overhead_amt items diff_factor burdened_rate overhead_pct

/-- Local `profit_amt` of `check_vitals` (`src/jaguar_heart.py` line 183). -/
def JaguarHeart.profit_amt (items : List LineItem) (diff_factor burdened_rate overhead_pct profit_pct : ℚ) : ℚ :=
  JaguarHeart.break_even items diff_factor burdened_rate overhead_pct * (profit_pct / 100)

/-- Local `sell_price` of `check_vitals` (`src/jaguar_heart.py` line 184). -/
def JaguarHeart.sell_price (items : List LineItem) (diff_factor burdened_rate overhead_pct profit_pct : ℚ) : ℚ :=
  JaguarHeart.break_even items diff_factor burdened_rate overhead_pct +
    JaguarHeart.profit_amt items diff_factor burdened_rate overhead_pct profit_pct

/-- The method `check_vitals` (`src/jaguar_heart.py` lines 162-198).  Every
returned money/hour figure is passed through `round(_, 2)`; the margin through
`round(_, 1)`, guarded by `sell_price > 0` on the unrounded sell price. -/
def JaguarHeart.check_vitals (heart : JaguarHeart) (overhead_pct profit_pct : ℚ) : BidRecap :=
  let items := heart.current_bid.items
  let diff_factor := heart.current_bid.difficulty_factor
  { estimate_id := heart.current_bid.id
    project := heart.current_bid.name
    material_total := round2 (JaguarHeart.total_mat items)
    labor_hours_base := round2 (JaguarHeart.base_labor_hours items)
    labor_hours_adj := round2 (JaguarHeart.adjusted_labor_hours items diff_factor)
    labor_cost_total := round2 (JaguarHeart.total_labor_cost items diff_factor heart.burdened_rate)
    raw_cost := round2 (JaguarHeart.raw_cost items diff_factor heart.burdened_rate)
    overhead_amt := round2 (JaguarHeart.overhead_amt items diff_factor heart.burdened_rate overhead_pct)
    profit_amt := round2 (JaguarHeart.profit_amt items diff_factor heart.burdened_rate overhead_pct profit_pct)
    sell_price := round2 (JaguarHeart.sell_price items diff_factor heart.burdened_rate overhead_pct profit_pct)
    margin_pct :=
      if 0 < JaguarHeart.sell_price items diff_factor heart.burdened_rate overhead_pct profit_pct then
        round1 (JaguarHeart.profit_amt items diff_factor heart.burdened_rate overhead_pct profit_pct /
          JaguarHeart.sell_price items diff_factor heart.burdened_rate overhead_pct profit_pct * 100)
      else 0 }

/-!
Embedding of `src/owl.bids.py` (class `OwlBids`, lines 62-220).
-/

/-- One record of `MOCK_BID_HISTORY` (`src/owl.bids.py` lines 62-79). -/
structure BidRecord where
  id : String
  client : String
  type : String
  value : ℤ
  margin : ℚ
  outcome : String
  competitor : String
deriving DecidableEq

/-- The `MOCK_BID_HISTORY` training data (`src/owl.bids.py` lines 62-79),
installed as `self.history` by `OwlBids.__init__`. -/
def MOCK_BID_HISTORY : List BidRecord :=
  [ ⟨"B-001", "MERCY HEALTH", "HOSPITAL", 150000, 15, "WON", "N/A"⟩,
    ⟨"B-002", "MERCY HEALTH", "CLINIC", 45000, 18, "WON", "N/A"⟩,
    ⟨"B-003", "OHIO STATE", "SCHOOL", 2500000, 10, "LOST", "ZENITH ELECTRIC"⟩,
    ⟨"B-004", "TARGET CORP", "RETAIL", 85000, 12, "LOST", "BUDGET ELECTRIC"⟩,
    ⟨"B-005", "MERCY HEALTH", "HOSPITAL", 300000, 14, "WON", "N/A"⟩,
    ⟨"B-006", "OHIO STATE", "DORM", 1200000, 8, "LOST", "ZENITH ELECTRIC"⟩,
    ⟨"B-007", "LOCAL DINER", "RETAIL", 12000, 25, "WON", "N/A"⟩,
    ⟨"B-008", "FACTORY INC", "INDUSTRIAL", 500000, 20, "WON", "N/A"⟩ ]

/-- The report dictionary returned by `predict_win_probability`
(`src/owl.bids.py` lines 154-158). -/
structure ProbabilityReport where
  probability : ℚ
  status : String
  factors : List String
deriving DecidableEq

/-- The "CLIENT FACTOR" block of `predict_win_probability`
(`src/owl.bids.py` lines 114-127): the score delta and the factor strings this
block appends.  The block neither reads nor depends on the running score, so it
is modelled as an independent contribution. -/
def OwlBids.clientAdjust (history : List BidRecord) (client : String) : ℚ × List String :=
  let client_wins := history.filter fun b => b.client == client && b.outcome == "WON"
  let client_total := history.filter fun b => b.client == client
  if client_total ≠ [] then
    let win_rate : ℚ := (client_wins.length : ℚ) / (client_total.length : ℚ)
    if win_rate > 0.7 then (20, ["Strong Client Relationship (+20)"])
    else if win_rate < 0.3 then (-15, ["Poor Client History (-15)"])
    else (0, [])
  else (0, ["New Client (Neutral)"])

/-- The "SECTOR FACTOR" block of `predict_win_probability`
(`src/owl.bids.py` lines 129-133). -/
def OwlBids.sectorAdjust (history : List BidRecord) (job_type : String) : ℚ × List String :=
  let sector_wins := history.filter fun b => b.type == job_type && b.outcome == "WON"
  if 2 ≤ sector_wins.length then (15, ["Expertise in " ++ job_type ++ " (+15)"])
  else (0, [])

/-- The "SIZE FACTOR" block of `predict_win_probability`
(`src/owl.bids.py` lines 135-142). -/
def OwlBids.sizeAdjust (est_value : ℤ) : ℚ × List String :=
  if 10000 ≤ est_value ∧ est_value ≤ 500000 then (10, ["Value in Sweet Spot (+10)"])
  else if 2000000 < est_value then (-20, ["High Value / High Risk (-20)"])
  else (0, [])

/-- The running score of `predict_win_probability` just before the clamp
(`src/owl.bids.py` lines 111-142): base 50 plus the three block deltas, applied
in order. -/
def OwlBids.rawWinScore (history : List BidRecord) (client job_type : String)
    (est_value : ℤ) : ℚ :=
  50 + (OwlBids.clientAdjust history client).1 + (OwlBids.sectorAdjust history job_type).1 +
    (OwlBids.sizeAdjust est_value).1

/-- The method `predict_win_probability` (`src/owl.bids.py` lines 102-158),
parametrised by the history list that `OwlBids.__init__` installs
(`self.history`): clamp the raw score to `[1, 99]`, derive the traffic-light
status, collect the factor strings in evaluation order, and return
`round(final_score, 1)`. -/
def OwlBids.predict_win_probability (history : List BidRecord) (client job_type : String)
    (est_value : ℤ) : ProbabilityReport :=
  let final_score := min 99 (max 1 (OwlBids.rawWinScore history client job_type est_value))
  let status := if 75 < final_score then "GREEN" else if final_score < 30 then "RED" else "YELLOW"
  { probability := round1 final_score
    status := status
    factors := (OwlBids.clientAdjust history client).2 ++
      (OwlBids.sectorAdjust history job_type).2 ++ (OwlBids.sizeAdjust est_value).2 }

/-- The recommendation dictionary returned by `suggest_bid_strategy`
(`src/owl.bids.py` lines 215-220). -/
structure StrategyRecommendation where
  suggested_margin : ℚ
  sell_price : ℚ
  profit : ℚ
  strategy_note : String
deriving DecidableEq

/-- The method `suggest_bid_strategy` (`src/owl.bids.py` lines 182-220).  The
`base_margin = 15.0` local of the source is dead: every branch of the
`if`/`elif`/`else` chain overwrites `suggested_margin`.  `sell_price` and
`profit` are rounded to 2 decimals on return; `profit` is computed from the
unrounded sell price. -/
def OwlBids.suggest_bid_strategy (base_cost : ℚ) (probability_report : ProbabilityReport) :
    StrategyRecommendation :=
  let prob := probability_report.probability
  let sm : ℚ × String :=
    if 80 ≤ prob then
      (20, "DOMINANT POSITION. Increase margin to 20%. Client pays for quality.")
    else if 50 ≤ prob ∧ prob < 80 then
      (15, "STANDARD PLAY. Stick to 15%. Don\x27t leave money on the table.")
    else if 30 ≤ prob ∧ prob < 50 then
      (10, "WEAK POSITION. If you need this job to feed the guys, cut to 10%. Otherwise, walk away.")
    else
      (25, "DO NOT BID. Probability too low. Submit high \x27Courtesy Bid\x27 only.")
  let sell_price := base_cost / (1 - sm.1 / 100)
  { suggested_margin := sm.1
    sell_price := round2 sell_price
    profit := round2 (sell_price - base_cost)
    strategy_note := sm.2 }

/-- Lower-case a string as its list of Unicode code points, mapping the ASCII
letters `A`-`Z` to `a`-`z`.  Used to state case-insensitive containment. -/
def lowerCodes (s : String) : List Nat :=
  s.data.map fun c => if 65 ≤ c.toNat ∧ c.toNat ≤ 90 then c.toNat + 32 else c.toNat

/-- Case-insensitive substring containment: after lower-casing, `sub` occurs
contiguously inside `s`. -/
def containsCI (s sub : String) : Prop :=
  ∃ pre post : List Nat, lowerCodes s = pre ++ lowerCodes sub ++ post

/-!
Helper lemmas about the win-probability scorer.
-/

lemma clientAdjust_fst_int (history : List BidRecord) (client : String) :
    ∃ k : ℤ, (OwlBids.clientAdjust history client).1 = (k:ℚ) ∧ -15 ≤ k ∧ k ≤ 20 := by
  unfold OwlBids.clientAdjust
  dsimp only
  split_ifs
  · exact ⟨20, by norm_num⟩
  · exact ⟨-15, by norm_num⟩
  · exact ⟨0, by norm_num⟩
  · exact ⟨0, by norm_num⟩

lemma sectorAdjust_fst_int (history : List BidRecord) (job_type : String) :
    ∃ k : ℤ, (OwlBids.sectorAdjust history job_type).1 = (k:ℚ) ∧ 0 ≤ k ∧ k ≤ 15 := by
  unfold OwlBids.sectorAdjust
  dsimp only
  split_ifs
  · exact ⟨15, by norm_num⟩
  · exact ⟨0, by norm_num⟩

lemma sizeAdjust_fst_int (est_value : ℤ) :
    ∃ k : ℤ, (OwlBids.sizeAdjust est_value).1 = (k:ℚ) ∧ -20 ≤ k ∧ k ≤ 10 := by
  unfold OwlBids.sizeAdjust
  split_ifs
  · exact ⟨10, by norm_num⟩
  · exact ⟨-20, by norm_num⟩
  · exact ⟨0, by norm_num⟩

lemma rawWinScore_int_bounds (history : List BidRecord) (client job_type : String)
    (est_value : ℤ) :
    ∃ n : ℤ, OwlBids.rawWinScore history client job_type est_value = (n:ℚ) ∧
      15 ≤ n ∧ n ≤ 95 := by
  obtain ⟨a, ha, ha₁, ha₂⟩ := clientAdjust_fst_int history client
  obtain ⟨b, hb, hb₁, hb₂⟩ := sectorAdjust_fst_int history job_type
  obtain ⟨c, hc, hc₁, hc₂⟩ := sizeAdjust_fst_int est_value
  refine ⟨50 + a + b + c, ?_, by omega, by omega⟩
  unfold OwlBids.rawWinScore
  rw [ha, hb, hc]
  push_cast
  ring

lemma predict_probability_eq_rawWinScore (history : List BidRecord) (client job_type : String)
    (est_value : ℤ) :
    (OwlBids.predict_win_probability history client job_type est_value).probability =
      OwlBids.rawWinScore history client job_type est_value := by
  obtain ⟨n, hn, h₁, h₂⟩ := rawWinScore_int_bounds history client job_type est_value
  show round1 (min 99 (max 1 (OwlBids.rawWinScore history client job_type est_value))) = _
  rw [hn]
  have hmm : min (99:ℚ) (max 1 (n:ℚ)) = ((min 99 (max 1 n) : ℤ) : ℚ) := by push_cast; ring
  rw [hmm, round1_intCast]
  have : min 99 (max 1 n) = n := by omega
  rw [this]

/-!
A concrete run of the estimating pipeline, used by counterexamples and
witnesses: default rates (35, 1.45), a STANDARD-difficulty bid holding one
`ASM-SW-1P` line item, recapped at 10% overhead / 15% profit.
-/

/-- The line item `pump_assembly` appends for `ASM-SW-1P` with quantity 1. -/
def demoItem : LineItem :=
  ⟨"ASM-SW-1P", "Single Pole Switch Complete", 1, 9.25, 0.45, 9.25, 0.45⟩

/-- The active bid after `start_new_bid("Test Job", "STANDARD")` (uuid suffix
`ABC123`) and `pump_assembly("ASM-SW-1P", 1)`. -/
def demoBid : Bid := ⟨some "EST-ABC123", some "Test Job", [demoItem], 1⟩

/-- The full engine state reached by the demo run. -/
def demoHeart : JaguarHeart := ⟨35, 1.45, 50.75, demoBid⟩

lemma demo_run :
    (((JaguarHeart.init 35 1.45).start_new_bid "Test Job" "STANDARD" "ABC123").pump_assembly
      "ASM-SW-1P" 1).2 = demoHeart := by
  have h1 : round2 ((9.25:ℚ) * 1) = 9.25 :=
    round2_eq_of_lt _ _ 925 (by norm_num) (by norm_num) (by norm_num)
  have h1' : round2 (9.25:ℚ) = 9.25 :=
    round2_eq_of_lt _ _ 925 (by norm_num) (by norm_num) (by norm_num)
  have h2 : round2 ((0.45:ℚ) * 1) = 0.45 :=
    round2_eq_of_lt _ _ 45 (by norm_num) (by norm_num) (by norm_num)
  have h2' : round2 (0.45:ℚ) = 0.45 :=
    round2_eq_of_lt _ _ 45 (by norm_num) (by norm_num) (by norm_num)
  have h3 : round2 ((35:ℚ) * 1.45) = 50.75 :=
    round2_eq_of_lt _ _ 5075 (by norm_num) (by norm_num) (by norm_num)
  simp [JaguarHeart.pump_assembly, JaguarHeart.start_new_bid, JaguarHeart.init,
    MOCK_ASSEMBLIES, demoHeart, demoBid, demoItem, h1, h1', h2, h2', h3]
  norm_num

lemma demo_vitals :
    demoHeart.check_vitals 10 15 =
      ⟨some "EST-ABC123", some "Test Job", 9.25, 0.45, 0.45, 22.84, 32.09, 3.21, 5.29, 40.59, 13⟩ := by
  have hm : JaguarHeart.total_mat [demoItem] = 9.25 := by
    norm_num [JaguarHeart.total_mat, demoItem]
  have hh : JaguarHeart.base_labor_hours [demoItem] = 0.45 := by
    norm_num [JaguarHeart.base_labor_hours, demoItem]
  have hadj : JaguarHeart.adjusted_labor_hours [demoItem] 1 = 0.45 := by
    rw [JaguarHeart.adjusted_labor_hours, hh]; norm_num
  have hcost : JaguarHeart.total_labor_cost [demoItem] 1 50.75 = 22.8375 := by
    rw [JaguarHeart.total_labor_cost, hadj]; norm_num
  have hraw : JaguarHeart.raw_cost [demoItem] 1 50.75 = 32.0875 := by
    rw [JaguarHeart.raw_cost, hm, hcost]; norm_num
  have hovh : JaguarHeart.overhead_amt [demoItem] 1 50.75 10 = 3.20875 := by
    rw [JaguarHeart.overhead_amt, hraw]; norm_num
  have hbe : JaguarHeart.break_even [demoItem] 1 50.75 10 = 35.29625 := by
    rw [JaguarHeart.break_even, hraw, hovh]; norm_num
  have hprf : JaguarHeart.profit_amt [demoItem] 1 50.75 10 15 = 5.2944375 := by
    rw [JaguarHeart.profit_amt, hbe]; norm_num
  have hsell : JaguarHeart.sell_price [demoItem] 1 50.75 10 15 = 40.5906875 := by
    rw [JaguarHeart.sell_price, hbe, hprf]; norm_num
  have r1 : round2 (9.25:ℚ) = 9.25 :=
    round2_eq_of_lt _ _ 925 (by norm_num) (by norm_num) (by norm_num)
  have r2 : round2 (0.45:ℚ) = 0.45 :=
    round2_eq_of_lt _ _ 45 (by norm_num) (by norm_num) (by norm_num)
  have r3 : round2 (22.8375:ℚ) = 22.84 :=
    round2_eq_of_gt _ _ 2283 (by norm_num) (by norm_num) (by norm_num)
  have r4 : round2 (32.0875:ℚ) = 32.09 :=
    round2_eq_of_gt _ _ 3208 (by norm_num) (by norm_num) (by norm_num)
  have r5 : round2 (3.20875:ℚ) = 3.21 :=
    round2_eq_of_gt _ _ 320 (by norm_num) (by norm_num) (by norm_num)
  have r6 : round2 (5.2944375:ℚ) = 5.29 :=
    round2_eq_of_lt _ _ 529 (by norm_num) (by norm_num) (by norm_num)
  have r7 : round2 (40.5906875:ℚ) = 40.59 :=
    round2_eq_of_lt _ _ 4059 (by norm_num) (by norm_num) (by norm_num)
  have hratio : (5.2944375:ℚ) / 40.5906875 * 100 = 300/23 := by norm_num
  have r8 : round1 ((300:ℚ)/23) = 13 :=
    round1_eq_of_lt _ _ 130 (by norm_num) (by norm_num) (by norm_num)
  simp only [JaguarHeart.check_vitals, demoHeart, demoBid]
  rw [hm, hh, hadj, hcost, hraw, hovh, hprf, hsell, hratio, r1, r2, r3, r4, r5, r6, r7,
    if_pos (by norm_num : (0:ℚ) < 40.5906875), r8]

/-!
Claim theorems.
-/

/-- Claim C1, counterexample.  The claim asserts that `check_vitals` returns
`rawCost = materialTotal + laborCost` with
`laborCost = adjustedLaborHours × (baseLaborRate × burdenMultiplier)` exactly.
On the demo run (rates 35 and 1.45, STANDARD bid, one `ASM-SW-1P` at quantity
1) the claimed value is `9.25 + (0.45 × 1) × (35 × 1.45) = 32.0875`, but
`check_vitals` returns `round(32.0875, 2) = 32.09`: the source rounds every
returned figure to two decimals, so the claimed exact equalities fail. -/
theorem C1_recap_formulas_counterexample :
    ¬ ((((JaguarHeart.init 35 1.45).start_new_bid "Test Job" "STANDARD" "ABC123").pump_assembly
          "ASM-SW-1P" 1).2.check_vitals 10 15).raw_cost =
        9.25 + (0.45 * 1) * (35 * 1.45) := by
  rw [demo_run, demo_vitals]
  norm_num

/-- Claim C1, amended.  `check_vitals` computes exactly the claimed chain of
formulas — material and labor sums, difficulty-adjusted hours, burdened labor
cost, raw cost, overhead, profit, sell price, and the margin guard — except
that the burdened rate is `round(baseLaborRate × burdenMultiplier, 2)` (set by
the constructor) and every returned figure is rounded: money and hour fields
to 2 decimal places, the margin percentage to 1. -/
theorem C1_recap_formulas_amended (rate burden overhead_pct profit_pct : ℚ) (bid : Bid) :
    let heart : JaguarHeart := { JaguarHeart.init rate burden with current_bid := bid }
    let r := heart.check_vitals overhead_pct profit_pct
    let materialTotal := (bid.items.map fun i => i.total_mat_cost).sum
    let baseLaborHours := (bid.items.map fun i => i.total_labor_hours).sum
    let burdenedRate := round2 (rate * burden)
    let adjustedLaborHours := baseLaborHours * bid.difficulty_factor
    let laborCost := adjustedLaborHours * burdenedRate
    let rawCost := materialTotal + laborCost
    let overheadAmount := rawCost * (overhead_pct / 100)
    let profitAmount := (rawCost + overheadAmount) * (profit_pct / 100)
    let sellPrice := rawCost + overheadAmount + profitAmount
    r.material_total = round2 materialTotal ∧
    r.labor_hours_base = round2 baseLaborHours ∧
    r.labor_hours_adj = round2 adjustedLaborHours ∧
    r.labor_cost_total = round2 laborCost ∧
    r.raw_cost = round2 rawCost ∧
    r.overhead_amt = round2 overheadAmount ∧
    r.profit_amt = round2 profitAmount ∧
    r.sell_price = round2 sellPrice ∧
    r.margin_pct = (if 0 < sellPrice then round1 (profitAmount / sellPrice * 100) else 0) :=
  ⟨rfl, rfl, rfl, rfl, rfl, rfl, rfl, rfl, rfl⟩

/-- Claim C5.  `start_new_bid` maps the difficulty category through the
enumerated table `HIGH_CEILINGS → 1.2`, `OCCUPIED_PREMISES → 1.3`,
`CONFINED_SPACE → 1.5`, anything else (STANDARD, NORMAL, unknown strings)
`→ 1.0`, and always succeeds. -/
theorem C5_difficulty_factor_table (heart : JaguarHeart) (project_name difficulty hex6 : String) :
    (heart.start_new_bid project_name difficulty hex6).current_bid.difficulty_factor =
      (if difficulty = "HIGH_CEILINGS" then 1.2
       else if difficulty = "OCCUPIED_PREMISES" then 1.3
       else if difficulty = "CONFINED_SPACE" then 1.5
       else 1.0) := by
  unfold JaguarHeart.start_new_bid
  dsimp only
  split_ifs <;> simp_all

/-- Claim C6.  When the sku is absent from `MOCK_ASSEMBLIES`, `pump_assembly`
returns `False` and leaves the engine state — in particular the line-item
count of the current bid — unchanged. -/
theorem C6_missing_sku_rejected (heart : JaguarHeart) (sku : String) (qty : ℤ)
    (h : MOCK_ASSEMBLIES sku = none) :
    heart.pump_assembly sku qty = (false, heart) ∧
    (heart.pump_assembly sku qty).2.current_bid.items.length =
      heart.current_bid.items.length := by
  unfold JaguarHeart.pump_assembly
  rw [h]
  exact ⟨rfl, rfl⟩

/-- Claim C6, witness: the spec's scenario sku `ASM-DOES-NOT-EXIST` with the
freshly constructed engine. -/
theorem C6_missing_sku_rejected_witness :
    (JaguarHeart.init 35 1.45).pump_assembly "ASM-DOES-NOT-EXIST" 7 =
      (false, JaguarHeart.init 35 1.45) ∧
    ((JaguarHeart.init 35 1.45).pump_assembly "ASM-DOES-NOT-EXIST" 7).2.current_bid.items.length =
      (JaguarHeart.init 35 1.45).current_bid.items.length :=
  C6_missing_sku_rejected (JaguarHeart.init 35 1.45) "ASM-DOES-NOT-EXIST" 7 rfl

/-- Claim C7, counterexample.  The claim asserts that a zero quantity fails
with `InvalidQuantity` and appends nothing, but `pump_assembly` performs no
quantity validation: with quantity 0 on the fresh engine it returns `True` and
appends a line item (count goes from 0 to 1). -/
theorem C7_zero_quantity_counterexample :
    ((JaguarHeart.init 35 1.45).pump_assembly "ASM-SW-1P" 0).1 = true ∧
    ((JaguarHeart.init 35 1.45).pump_assembly "ASM-SW-1P" 0).2.current_bid.items.length = 1 :=
  ⟨rfl, rfl⟩

/-- Claim C7, amended.  `pump_assembly` accepts any quantity, zero and
negative included: for every catalog sku it returns `True` and appends exactly
one line item; there is no `InvalidQuantity` rejection in the source. -/
theorem C7_nonpositive_quantity_accepted (heart : JaguarHeart) (sku : String) (qty : ℤ)
    (assembly : Assembly) (h : MOCK_ASSEMBLIES sku = some assembly) (_hq : qty ≤ 0) :
    (heart.pump_assembly sku qty).1 = true ∧
    (heart.pump_assembly sku qty).2.current_bid.items.length =
      heart.current_bid.items.length + 1 := by
  unfold JaguarHeart.pump_assembly
  rw [h]
  exact ⟨rfl, by simp⟩

/-- Claim C7, witness for the amended statement: quantity 0 on sku
`ASM-SW-1P`. -/
theorem C7_nonpositive_quantity_accepted_witness :
    ((JaguarHeart.init 35 1.45).pump_assembly "ASM-SW-1P" 0).1 = true ∧
    ((JaguarHeart.init 35 1.45).pump_assembly "ASM-SW-1P" 0).2.current_bid.items.length =
      (JaguarHeart.init 35 1.45).current_bid.items.length + 1 :=
  C7_nonpositive_quantity_accepted (JaguarHeart.init 35 1.45) "ASM-SW-1P" 0
    ⟨"Single Pole Switch Complete", "Box, switch, plate, pigtail, 15ft pipe/wire",
      9.25, 0.45, "DEVICES"⟩ rfl (by norm_num)

/-- Claim C8.  On a bid with zero line items `check_vitals` does not fail and
returns a recap whose material total, labor hours (base and adjusted), labor
cost, raw cost, overhead, profit, sell price and margin are all zero, for
every overhead and profit percentage. -/
theorem C8_empty_bid_recap (heart : JaguarHeart) (overhead_pct profit_pct : ℚ)
    (h : heart.current_bid.items = []) :
    (heart.check_vitals overhead_pct profit_pct).material_total = 0 ∧
    (heart.check_vitals overhead_pct profit_pct).labor_hours_base = 0 ∧
    (heart.check_vitals overhead_pct profit_pct).labor_hours_adj = 0 ∧
    (heart.check_vitals overhead_pct profit_pct).labor_cost_total = 0 ∧
    (heart.check_vitals overhead_pct profit_pct).raw_cost = 0 ∧
    (heart.check_vitals overhead_pct profit_pct).overhead_amt = 0 ∧
    (heart.check_vitals overhead_pct profit_pct).profit_amt = 0 ∧
    (heart.check_vitals overhead_pct profit_pct).sell_price = 0 ∧
    (heart.check_vitals overhead_pct profit_pct).margin_pct = 0 := by
  unfold JaguarHeart.check_vitals JaguarHeart.sell_price JaguarHeart.profit_amt
    JaguarHeart.break_even JaguarHeart.overhead_amt JaguarHeart.raw_cost
    JaguarHeart.total_labor_cost JaguarHeart.adjusted_labor_hours
    JaguarHeart.base_labor_hours JaguarHeart.total_mat
  rw [h]
  simp [round2_zero]

/-- Claim C8, witness: the freshly constructed engine (whose current bid has
no items) at the default 10% overhead / 15% profit. -/
theorem C8_empty_bid_recap_witness :
    ((JaguarHeart.init 35 1.45).check_vitals 10 15).material_total = 0 ∧
    ((JaguarHeart.init 35 1.45).check_vitals 10 15).labor_hours_base = 0 ∧
    ((JaguarHeart.init 35 1.45).check_vitals 10 15).labor_hours_adj = 0 ∧
    ((JaguarHeart.init 35 1.45).check_vitals 10 15).labor_cost_total = 0 ∧
    ((JaguarHeart.init 35 1.45).check_vitals 10 15).raw_cost = 0 ∧
    ((JaguarHeart.init 35 1.45).check_vitals 10 15).overhead_amt = 0 ∧
    ((JaguarHeart.init 35 1.45).check_vitals 10 15).profit_amt = 0 ∧
    ((JaguarHeart.init 35 1.45).check_vitals 10 15).sell_price = 0 ∧
    ((JaguarHeart.init 35 1.45).check_vitals 10 15).margin_pct = 0 :=
  C8_empty_bid_recap (JaguarHeart.init 35 1.45) 10 15 rfl

/-- Claim C9, counterexample.  On the demo recap (`sell_price = 40.59 > 0`)
the returned margin is `round(13.043478..., 1) = 13.0`, while
`profitAmount / sellPrice × 100 = 5.29 / 40.59 × 100 = 13.0327...`; the gap is
about `0.033`, outside the claimed `±0.01` tolerance — the margin is rounded
to one decimal place, so only a `±0.05` tolerance can hold. -/
theorem C9_margin_tolerance_counterexample :
    0 < ((((JaguarHeart.init 35 1.45).start_new_bid "Test Job" "STANDARD" "ABC123").pump_assembly
          "ASM-SW-1P" 1).2.check_vitals 10 15).sell_price ∧
    ¬ (|((((JaguarHeart.init 35 1.45).start_new_bid "Test Job" "STANDARD" "ABC123").pump_assembly
            "ASM-SW-1P" 1).2.check_vitals 10 15).margin_pct -
          ((((JaguarHeart.init 35 1.45).start_new_bid "Test Job" "STANDARD" "ABC123").pump_assembly
            "ASM-SW-1P" 1).2.check_vitals 10 15).profit_amt /
          ((((JaguarHeart.init 35 1.45).start_new_bid "Test Job" "STANDARD" "ABC123").pump_assembly
            "ASM-SW-1P" 1).2.check_vitals 10 15).sell_price * 100| ≤ 1/100) := by
  rw [demo_run, demo_vitals]
  constructor
  · norm_num
  · rw [abs_le]
    norm_num

/-- Claim C9, amended.  Whenever the returned `sell_price` is positive, the
returned margin percentage equals the pre-rounding
`profitAmount / sellPrice × 100` to within `±0.05` (it is that ratio rounded
to one decimal place); the claimed `±0.01` tolerance is too tight. -/
theorem C9_margin_identity_amended (rate burden overhead_pct profit_pct : ℚ) (bid : Bid)
    (h : 0 < (({ JaguarHeart.init rate burden with current_bid := bid } : JaguarHeart).check_vitals
        overhead_pct profit_pct).sell_price) :
    |(({ JaguarHeart.init rate burden with current_bid := bid } : JaguarHeart).check_vitals
        overhead_pct profit_pct).margin_pct -
      JaguarHeart.profit_amt bid.items bid.difficulty_factor (round2 (rate * burden))
        overhead_pct profit_pct /
      JaguarHeart.sell_price bid.items bid.difficulty_factor (round2 (rate * burden))
        overhead_pct profit_pct * 100| ≤ 1/20 := by
  have hsell : 0 < JaguarHeart.sell_price bid.items bid.difficulty_factor
      (round2 (rate * burden)) overhead_pct profit_pct :=
    pos_of_round2_pos _ h
  have hm : (({ JaguarHeart.init rate burden with current_bid := bid } : JaguarHeart).check_vitals
      overhead_pct profit_pct).margin_pct =
      round1 (JaguarHeart.profit_amt bid.items bid.difficulty_factor (round2 (rate * burden))
          overhead_pct profit_pct /
        JaguarHeart.sell_price bid.items bid.difficulty_factor (round2 (rate * burden))
          overhead_pct profit_pct * 100) := by
    show (if 0 < JaguarHeart.sell_price bid.items bid.difficulty_factor
        (round2 (rate * burden)) overhead_pct profit_pct then
        round1 (JaguarHeart.profit_amt bid.items bid.difficulty_factor (round2 (rate * burden))
            overhead_pct profit_pct /
          JaguarHeart.sell_price bid.items bid.difficulty_factor (round2 (rate * burden))
            overhead_pct profit_pct * 100)
      else 0) = _
    rw [if_pos hsell]
  rw [hm]
  exact abs_round1_sub_le _

lemma demo_heart_init :
    ({ JaguarHeart.init 35 1.45 with current_bid := demoBid } : JaguarHeart) = demoHeart := by
  have h3 : round2 ((35:ℚ) * 1.45) = 50.75 :=
    round2_eq_of_lt _ _ 5075 (by norm_num) (by norm_num) (by norm_num)
  simp [JaguarHeart.init, demoHeart, h3]

/-- Claim C9, witness for the amended statement: the demo recap, whose sell
price 40.59 is positive. -/
theorem C9_margin_identity_witness :
    0 < (({ JaguarHeart.init 35 1.45 with current_bid := demoBid } : JaguarHeart).check_vitals
        10 15).sell_price ∧
    |(({ JaguarHeart.init 35 1.45 with current_bid := demoBid } : JaguarHeart).check_vitals
        10 15).margin_pct -
      JaguarHeart.profit_amt demoBid.items demoBid.difficulty_factor (round2 (35 * 1.45)) 10 15 /
      JaguarHeart.sell_price demoBid.items demoBid.difficulty_factor (round2 (35 * 1.45)) 10 15 *
        100| ≤ 1/20 := by
  have h : 0 < (({ JaguarHeart.init 35 1.45 with current_bid := demoBid } : JaguarHeart).check_vitals
      10 15).sell_price := by
    rw [demo_heart_init, demo_vitals]
    norm_num
  exact ⟨h, C9_margin_identity_amended 35 1.45 10 15 demoBid h⟩

lemma rawWinScore_countP (history : List BidRecord) (client job_type : String) (est_value : ℤ) :
    OwlBids.rawWinScore history client job_type est_value =
      50 +
      (if 0 < history.countP (fun b => b.client == client) then
        (if ((history.countP (fun b => b.client == client && b.outcome == "WON") : ℚ) /
              (history.countP (fun b => b.client == client) : ℚ)) > 0.7 then 20
         else if ((history.countP (fun b => b.client == client && b.outcome == "WON") : ℚ) /
              (history.countP (fun b => b.client == client) : ℚ)) < 0.3 then -15
         else 0)
       else 0) +
      (if 2 ≤ history.countP (fun b => b.type == job_type && b.outcome == "WON") then 15 else 0) +
      (if 10000 ≤ est_value ∧ est_value ≤ 500000 then 10
       else if 2000000 < est_value then -20 else 0) := by
  unfold OwlBids.rawWinScore OwlBids.clientAdjust OwlBids.sectorAdjust OwlBids.sizeAdjust
  dsimp only
  simp only [List.countP_eq_length_filter, List.length_pos]
  split_ifs <;> norm_num

lemma predict_factors_countP (history : List BidRecord) (client job_type : String)
    (est_value : ℤ) :
    (OwlBids.predict_win_probability history client job_type est_value).factors =
      (if 0 < history.countP (fun b => b.client == client) then
        (if ((history.countP (fun b => b.client == client && b.outcome == "WON") : ℚ) /
              (history.countP (fun b => b.client == client) : ℚ)) > 0.7 then
          ["Strong Client Relationship (+20)"]
         else if ((history.countP (fun b => b.client == client && b.outcome == "WON") : ℚ) /
              (history.countP (fun b => b.client == client) : ℚ)) < 0.3 then
          ["Poor Client History (-15)"]
         else [])
       else ["New Client (Neutral)"]) ++
      (if 2 ≤ history.countP (fun b => b.type == job_type && b.outcome == "WON") then
        ["Expertise in " ++ job_type ++ " (+15)"]
       else []) ++
      (if 10000 ≤ est_value ∧ est_value ≤ 500000 then ["Value in Sweet Spot (+10)"]
       else if 2000000 < est_value then ["High Value / High Risk (-20)"] else []) := by
  unfold OwlBids.predict_win_probability OwlBids.clientAdjust OwlBids.sectorAdjust
    OwlBids.sizeAdjust
  dsimp only
  simp only [List.countP_eq_length_filter, List.length_pos]
  split_ifs <;> rfl

/-- Claim C2.  `predict_win_probability` scores additively from a base of 50:
+20 when the client has at least one prior record and a win rate above 0.7,
−15 when the win rate is below 0.3, a neutral "New Client" note when unseen;
+15 when at least two WON records share the job type; +10 when the estimated
value lies in [10000, 500000], −20 when it exceeds 2000000.  The result is
the sum clamped to [1, 99]; the status is GREEN above 75, RED below 30, else
YELLOW; and the factor list is exactly the strings of the rules that fired,
in evaluation order (client, then sector, then size). -/
theorem C2_predict_win_probability_spec (history : List BidRecord) (client job_type : String)
    (est_value : ℤ) :
    let r := OwlBids.predict_win_probability history client job_type est_value
    let tot := history.countP fun b => b.client == client
    let wins := history.countP fun b => b.client == client && b.outcome == "WON"
    let clientDelta : ℚ :=
      if 0 < tot then
        (if ((wins : ℚ) / (tot : ℚ)) > 0.7 then 20
         else if ((wins : ℚ) / (tot : ℚ)) < 0.3 then -15
         else 0)
      else 0
    let clientFactors : List String :=
      if 0 < tot then
        (if ((wins : ℚ) / (tot : ℚ)) > 0.7 then ["Strong Client Relationship (+20)"]
         else if ((wins : ℚ) / (tot : ℚ)) < 0.3 then ["Poor Client History (-15)"]
         else [])
      else ["New Client (Neutral)"]
    let sectorWins := history.countP fun b => b.type == job_type && b.outcome == "WON"
    let sectorDelta : ℚ := if 2 ≤ sectorWins then 15 else 0
    let sectorFactors : List String :=
      if 2 ≤ sectorWins then ["Expertise in " ++ job_type ++ " (+15)"] else []
    let sizeDelta : ℚ :=
      if 10000 ≤ est_value ∧ est_value ≤ 500000 then 10
      else if 2000000 < est_value then -20 else 0
    let sizeFactors : List String :=
      if 10000 ≤ est_value ∧ est_value ≤ 500000 then ["Value in Sweet Spot (+10)"]
      else if 2000000 < est_value then ["High Value / High Risk (-20)"] else []
    let final := min 99 (max 1 (50 + clientDelta + sectorDelta + sizeDelta))
    r.probability = final ∧
    r.factors = clientFactors ++ sectorFactors ++ sizeFactors ∧
    r.status = (if 75 < final then "GREEN" else if final < 30 then "RED" else "YELLOW") := by
  dsimp only
  refine ⟨?_, ?_, ?_⟩
  · rw [predict_probability_eq_rawWinScore, rawWinScore_countP, ← rawWinScore_countP]
    obtain ⟨n, hn, h1, h2⟩ := rawWinScore_int_bounds history client job_type est_value
    rw [hn]
    exact_mod_cast (by omega : n = min 99 (max 1 n))
  · exact predict_factors_countP history client job_type est_value
  · rw [← rawWinScore_countP]
    simp only [OwlBids.predict_win_probability]

/-- Claim C4.  The probability returned by `predict_win_probability` always
lies in the closed interval [1, 99]. -/
theorem C4_probability_in_1_99 (history : List BidRecord) (client job_type : String)
    (est_value : ℤ) :
    1 ≤ (OwlBids.predict_win_probability history client job_type est_value).probability ∧
    (OwlBids.predict_win_probability history client job_type est_value).probability ≤ 99 := by
  obtain ⟨n, hn, h1, h2⟩ := rawWinScore_int_bounds history client job_type est_value
  rw [predict_probability_eq_rawWinScore, hn]
  constructor
  · exact_mod_cast (by omega : (1:ℤ) ≤ n)
  · exact_mod_cast (by omega : n ≤ 99)

/-- Claim C10.  The raw additive score of `predict_win_probability` already
lies in [15, 95] before the clamp (base 50, worst case −15 client and −20
size, best case +20 client +15 sector +10 size), so the clamp to [1, 99]
never changes the value, and the returned probability is always between 15
and 95. -/
theorem C10_raw_score_tight_bounds (history : List BidRecord) (client job_type : String)
    (est_value : ℤ) :
    15 ≤ OwlBids.rawWinScore history client job_type est_value ∧
    OwlBids.rawWinScore history client job_type est_value ≤ 95 ∧
    min 99 (max 1 (OwlBids.rawWinScore history client job_type est_value)) =
      OwlBids.rawWinScore history client job_type est_value ∧
    15 ≤ (OwlBids.predict_win_probability history client job_type est_value).probability ∧
    (OwlBids.predict_win_probability history client job_type est_value).probability ≤ 95 := by
  obtain ⟨n, hn, h1, h2⟩ := rawWinScore_int_bounds history client job_type est_value
  rw [predict_probability_eq_rawWinScore, hn]
  refine ⟨?_, ?_, ?_, ?_, ?_⟩
  · exact_mod_cast h1
  · exact_mod_cast h2
  · exact_mod_cast (by omega : min 99 (max 1 n) = n)
  · exact_mod_cast h1
  · exact_mod_cast h2

/-- Claim C3, counterexample.  The claim asserts
`sellPrice = baseCost / (1 − suggestedMargin/100)` exactly.  At
`baseCost = 100` with a score-50 report the suggested margin is 15, the
derived value is `100 / 0.85 = 2000/17 = 117.647...`, but the returned
`sell_price` is `round(2000/17, 2) = 117.65`: the source rounds the returned
sell price (and profit) to two decimals. -/
theorem C3_strategy_counterexample :
    ¬ ((OwlBids.suggest_bid_strategy 100 ⟨50, "YELLOW", []⟩).sell_price =
        100 / (1 - (OwlBids.suggest_bid_strategy 100 ⟨50, "YELLOW", []⟩).suggested_margin / 100)) := by
  have hmargin : (OwlBids.suggest_bid_strategy 100 ⟨50, "YELLOW", []⟩).suggested_margin = 15 := by
    unfold OwlBids.suggest_bid_strategy
    dsimp only
    rw [if_neg (by norm_num), if_pos (by norm_num)]
  have hsell : (OwlBids.suggest_bid_strategy 100 ⟨50, "YELLOW", []⟩).sell_price = 117.65 := by
    unfold OwlBids.suggest_bid_strategy
    dsimp only
    rw [if_neg (by norm_num), if_pos (by norm_num)]
    dsimp only
    have harg : (100:ℚ) / (1 - 15 / 100) = 2000/17 := by norm_num
    rw [harg]
    exact round2_eq_of_gt _ _ 11764 (by norm_num) (by norm_num) (by norm_num)
  rw [hsell, hmargin]
  norm_num

/-- Claim C3, amended.  `suggest_bid_strategy` maps the probability score
through the four-tier table (≥80 → 20, [50, 80) → 15, [30, 50) → 10,
<30 → 25); below 30 the suggested margin 25 is the highest of the four tiers
and the note contains "do not bid" case-insensitively; and the returned
`sell_price` and `profit` are `baseCost / (1 − suggestedMargin/100)` and that
value minus `baseCost`, each rounded to two decimals on return. -/
theorem C3_strategy_tiers_amended (base_cost : ℚ) (pr : ProbabilityReport) :
    (80 ≤ pr.probability → (OwlBids.suggest_bid_strategy base_cost pr).suggested_margin = 20) ∧
    (50 ≤ pr.probability ∧ pr.probability < 80 →
      (OwlBids.suggest_bid_strategy base_cost pr).suggested_margin = 15) ∧
    (30 ≤ pr.probability ∧ pr.probability < 50 →
      (OwlBids.suggest_bid_strategy base_cost pr).suggested_margin = 10) ∧
    (pr.probability < 30 →
      (OwlBids.suggest_bid_strategy base_cost pr).suggested_margin = 25 ∧
      (∀ m ∈ ([20, 15, 10, 25] : List ℚ),
        m ≤ (OwlBids.suggest_bid_strategy base_cost pr).suggested_margin) ∧
      containsCI (OwlBids.suggest_bid_strategy base_cost pr).strategy_note "do not bid") ∧
    (OwlBids.suggest_bid_strategy base_cost pr).sell_price =
      round2 (base_cost / (1 - (OwlBids.suggest_bid_strategy base_cost pr).suggested_margin / 100)) ∧
    (OwlBids.suggest_bid_strategy base_cost pr).profit =
      round2 (base_cost / (1 - (OwlBids.suggest_bid_strategy base_cost pr).suggested_margin / 100)
        - base_cost) := by
  unfold OwlBids.suggest_bid_strategy
  dsimp only
  split_ifs with h1 h2 h3
  · exact ⟨fun _ => rfl,
      fun hx => absurd hx.2 (not_lt.mpr h1),
      fun hx => absurd hx.2 (not_lt.mpr (by linarith)),
      fun hx => absurd hx (not_lt.mpr (by linarith)),
      rfl, rfl⟩
  · exact ⟨fun hx => absurd hx h1,
      fun _ => rfl,
      fun hx => absurd hx.2 (not_lt.mpr h2.1),
      fun hx => absurd hx (not_lt.mpr (by linarith [h2.1])),
      rfl, rfl⟩
  · exact ⟨fun hx => absurd hx h1,
      fun hx => absurd hx.1 (not_le.mpr h3.2),
      fun _ => rfl,
      fun hx => absurd hx (not_lt.mpr h3.1),
      rfl, rfl⟩
  · exact ⟨fun hx => absurd hx h1,
      fun hx => absurd hx h2,
      fun hx => absurd hx h3,
      fun _ => ⟨rfl,
        by intro m hm; fin_cases hm <;> norm_num,
        ⟨[], lowerCodes ". probability too low. submit high \x27courtesy bid\x27 only.", by decide⟩⟩,
      rfl, rfl⟩

/-- Claim C3, witness for the amended statement: the spec scenario
(`baseCost = 180000`, report with score 25) lands in the <30 tier with margin
25 — the maximum of the four tiers — and a "do not bid" note. -/
theorem C3_strategy_witness :
    (OwlBids.suggest_bid_strategy 180000 ⟨25, "RED", []⟩).suggested_margin = 25 ∧
    (∀ m ∈ ([20, 15, 10, 25] : List ℚ),
      m ≤ (OwlBids.suggest_bid_strategy 180000 ⟨25, "RED", []⟩).suggested_margin) ∧
    containsCI (OwlBids.suggest_bid_strategy 180000 ⟨25, "RED", []⟩).strategy_note "do not bid" :=
  (C3_strategy_tiers_amended 180000 ⟨25, "RED", []⟩).2.2.2.1 (by show (25:ℚ) < 30; norm_num)
